import Mathlib

set_option autoImplicit false

/-!
Shallow embedding of the resilient GraphQL client of kibela/kibela-to-kibela
(`src/KibelaClient.ts`, latest copy: the one that exports `getOperationName`,
`isNotFoundError` and sends a `user-agent` header).

Modelling choices, stated once:
* JavaScript numbers used as delays/counters are embedded as `Nat` (all the
  arithmetic the client performs on them — `*2`, `Math.max`, `Math.min` — stays
  within non-negative integers on the inputs the client produces).
* The external libraries `graphql` (`print`), `@msgpack/msgpack` and `JSON` are
  embedded abstractly: `printDoc` is an injective rendering of a document, and a
  recognized-format decode returns the object the HTTP response carries
  (`HttpResponse.decoded`). Reading a response body is modelled as repeatable.
* Wall-clock timing metadata (`Date.now()`, the `x-runtime` header, the
  `$metadata` attachment) is not embedded: it is nondeterministic real time and
  no claim depends on it.
* JS truthiness of the fields the client tests: a missing/`null` field is
  `Option.none`; a present object (including an empty `errors` array) is
  `some _`. The string falsiness of `""` and the number falsiness of `0` in
  `a || b` are embedded by `jsOrElse` / `jsOrNat`.
-/

/-- One caught transport-level exception (opaque to the client). -/
abbrev NetErr := String

/-- The GraphQL vars object (opaque to the client; only passed through). -/
abbrev Variables := String

def FORMAT_JSON : String := "application/json"

def FORMAT_MSGPACK : String := "application/x-msgpack"

/-- As described in the kibela-api-v1-document: default least delay (ms). -/
def DEFAULT_LEAST_DELAY_MS : Nat := 100

/-- Floor for the exponential backoff applied after a raw network error (ms). -/
def LEAST_DELAY_AFTER_NETWORK_ERROR_MS : Nat := 1000

def DEFAULT_RETRY_COUNT : Nat := 0

/-- JS `a || b` for `a : string | null | undefined`: both `null` and `""` are
falsy and select `b`. -/
def jsOrElse : Option String → String → String
  | some s, b => if s = "" then b else s
  | none, b => b

/-- JS `a || b` for `a : number | undefined`: both `undefined` and `0` are
falsy and select `b`. -/
def jsOrNat : Option Nat → Nat → Nat
  | some n, b => if n = 0 then b else n
  | none, b => b

/-- One top-level definition of a GraphQL document: either an operation
definition (whose `name` may be absent) or a fragment definition. -/
inductive GqlDefinition where
  | operation (name : Option String) (body : String)
  | fragment (name : String) (body : String)
deriving DecidableEq, Repr

/-- `DocumentNode` of the `graphql` package: a list of top-level definitions. -/
structure DocumentNode where
  definitions : List GqlDefinition
deriving DecidableEq, Repr

/-- `getOperationName(doc)`: the name of the first operation definition that
carries a name, or `null`.  The source ends in `... [0] || null`, so a
first hit whose name is the empty string also yields `null`. -/
def getOperationName (doc : DocumentNode) : Option String :=
  let names := doc.definitions.filterMap fun d =>
    match d with
    | .operation (some n) _ => some n
    | _ => none
  match names with
  | [] => none
  | n :: _ => if n = "" then none else some n

/-- Models the external `graphql` printer `print`: a rendering of one
definition. -/
def gqlDefString : GqlDefinition → String
  | .operation none body => body
  | .operation (some n) body => n ++ " " ++ body
  | .fragment n body => "fragment " ++ n ++ " " ++ body

/-- Models the external `graphql` printer `print` applied to a document. -/
def printDoc (doc : DocumentNode) : String :=
  String.intercalate "\n" (doc.definitions.map gqlDefString)

/-- The wire-level request object `{ query, operationName, vars }`. -/
structure RequestEnvelope where
  query : String
  operationName : Option String
  vars : Variables
deriving DecidableEq, Repr

/-- A serialized request body; the two constructors stand for the external
`msgpack.encode` and `JSON.stringify` encodings of the envelope. -/
inductive WireBody where
  | msgpackBody (env : RequestEnvelope)
  | jsonBody (env : RequestEnvelope)
deriving DecidableEq, Repr

/-- `DefaultSerializer.serialize`: dispatch on the exact MIME string; an
unrecognized MIME type throws `Error("Unrecognized MIME type: ...")`. -/
def serialize (mimeType : String) (body : RequestEnvelope) : Except String WireBody :=
  if mimeType = FORMAT_MSGPACK then .ok (.msgpackBody body)
  else if mimeType = FORMAT_JSON then .ok (.jsonBody body)
  else .error ("Unrecognized MIME type: " ++ mimeType)

/-- The `body` value placed inside the synthesized unrecognized-content-type
error: `response.text()` for `text/*`, else the raw `arrayBuffer` bytes. -/
inductive ErrorBodyPayload where
  | textPayload (s : String)
  | binaryPayload (bytes : List Nat)
deriving DecidableEq, Repr

/-- The `extensions` object of one provider error record. -/
structure ErrorExtensions where
  code : Option String := none
  waitMilliseconds : Option Nat := none
  contentType : Option String := none
  body : Option ErrorBodyPayload := none
deriving DecidableEq, Repr

/-- One entry of a provider `errors` array. -/
structure ErrorRecord where
  message : Option String := none
  extensions : Option ErrorExtensions := none
deriving DecidableEq, Repr

/-- A decoded response body `{ data?, errors? }`.  The `data` payload is
opaque (any present object is truthy). -/
structure ResponseBody where
  data : Option String := none
  errors : Option (List ErrorRecord) := none
deriving DecidableEq, Repr

/-- One HTTP response as the client observes it.  `decoded` is the object the
body carries under a recognized format (the external decoder applied to the
body); `textBody`/`binaryBody` are the `response.text()` /
`response.arrayBuffer()` views used by the unrecognized-content-type path. -/
structure HttpResponse where
  ok : Bool
  status : Nat
  statusText : String
  contentTypeHeader : Option String := none
  decoded : ResponseBody := {}
  textBody : String := ""
  binaryBody : List Nat := []
deriving DecidableEq, Repr

/-- `DefaultSerializer.deserialize`: recognized formats decode the body
(externally); any other MIME type never throws and instead synthesizes an
error-shaped object tagged `KibelaClient.UNRECOGNIZED_CONTENT_TYPE`. -/
def deserialize (mimeType : String) (response : HttpResponse) : ResponseBody :=
  if mimeType = FORMAT_MSGPACK then response.decoded
  else if mimeType = FORMAT_JSON then response.decoded
  else
    { data := none,
      errors := some
        [{ message := some ("Unrecognized content-type: " ++ mimeType),
           extensions := some
             { code := some "KibelaClient.UNRECOGNIZED_CONTENT_TYPE",
               waitMilliseconds := none,
               contentType := some mimeType,
               body := some (if mimeType.startsWith "text/"
                 then .textPayload response.textBody
                 else .binaryPayload response.binaryBody) } }] }

/-- `split(/;/)[0].trim().toLocaleLowerCase()`: the segment before the first
`;`, with surrounding whitespace removed and characters lowercased (ASCII
lowercasing embeds `toLocaleLowerCase` faithfully for MIME strings). -/
def strippedTrimmedLowered (s : String) : String :=
  let cs := s.toList.takeWhile fun c => c ≠ ';'
  let cs := ((cs.dropWhile Char.isWhitespace).reverse.dropWhile Char.isWhitespace).reverse
  ⟨cs.map Char.toLower⟩

/-- `normalizeMimeType(type)`: `null` and `""` pass through unchanged (both
are falsy in the `if (type)` test); otherwise strip parameters, trim and
lowercase. -/
def normalizeMimeType : Option String → Option String
  | some t => if t = "" then some t else some (strippedTrimmedLowered t)
  | none => none

/-- `this.normalizeMimeType(response.headers.get("content-type")) || this.format`:
the content type handed to `deserialize` for a received response. -/
def contentTypeForResponse (hdr : Option String) (format : String) : String :=
  jsOrElse (normalizeMimeType hdr) format

/-- `addToDelayMsIfBudgetExhausted(errors)`: on a sole error whose
`extensions.code` is a budget-exhaustion code, sets
`delayMs = Math.min(leastDelayMs, waitMilliseconds)` and reports `true`;
otherwise leaves the delay alone and reports `false`.  A budget code with a
missing `waitMilliseconds` is embedded as wait `0` (the JS produces `NaN`,
which `setTimeout` treats as `0`; no claim exercises this corner). -/
def addToDelayMsIfBudgetExhausted (leastDelayMs delayMs : Nat)
    (errors : List ErrorRecord) : Nat × Bool :=
  match errors with
  | [e] =>
    match e.extensions with
    | some x =>
      match x.code with
      | some c =>
        if c = "TOKEN_BUDGET_EXHAUSTED" ∨ c = "TEAM_BUDGET_EXHAUSTED" then
          (min leastDelayMs (x.waitMilliseconds.getD 0), true)
        else (delayMs, false)
      | none => (delayMs, false)
    | none => (delayMs, false)
  | _ => (delayMs, false)

/-- Sole-budget-error test: the condition under which
`addToDelayMsIfBudgetExhausted` returns `true`. -/
def soleBudgetExhausted : List ErrorRecord → Bool
  | [e] =>
    match e.extensions with
    | some x =>
      match x.code with
      | some c => c = "TOKEN_BUDGET_EXHAUSTED" || c = "TEAM_BUDGET_EXHAUSTED"
      | none => false
    | none => false
  | _ => false

/-- The constructor options of `KibelaClient` (endpoint/fetch omitted: the
transport is the `script` argument of `request`). -/
structure KibelaClientOptions where
  team : String
  accessToken : String
  userAgent : String
  format : Option String := none
  leastDelayMs : Option Nat := none
  retryCount : Option Nat := none
deriving DecidableEq, Repr

/-- The immutable per-client configuration derived by the constructor. -/
structure ClientConfig where
  format : String
  leastDelayMs : Nat
  retryCount : Nat
deriving DecidableEq, Repr

/-- The fixed header set built once by the constructor. -/
structure HeaderSet where
  userAgent : String
  contentType : String
  accept : String
  authorization : String
deriving DecidableEq, Repr

/-- The header object literal of the constructor. -/
def buildHeaders (format userAgent accessToken : String) : HeaderSet :=
  { userAgent := userAgent,
    contentType := format,
    accept := if format ≠ FORMAT_JSON then format ++ ", application/json" else format,
    authorization := "Bearer " ++ accessToken }

/-- The constructor of `KibelaClient`: resolves defaults with JS `||`. -/
def mkClientConfig (o : KibelaClientOptions) : ClientConfig :=
  { format := jsOrElse o.format FORMAT_MSGPACK,
    leastDelayMs := jsOrNat o.leastDelayMs DEFAULT_LEAST_DELAY_MS,
    retryCount := jsOrNat o.retryCount DEFAULT_RETRY_COUNT }

/-- The fixed headers of a client built from `o`. -/
def mkClientHeaders (o : KibelaClientOptions) : HeaderSet :=
  buildHeaders (jsOrElse o.format FORMAT_MSGPACK) o.userAgent o.accessToken

/-- Outcome of one `this.fetch(...)` call: the promise either rejects with a
transport-level exception or resolves to an HTTP response. -/
inductive FetchOutcome where
  | throwErr (e : NetErr)
  | reply (r : HttpResponse)
deriving DecidableEq, Repr

/-- The mutable state of one in-flight `request()` retry loop.  `delayMs` is
the client-instance field; `response`/`responseBody` are the loop-scope
vars that persist across iterations (a later iteration whose fetch throws
still sees the previous iteration's response). -/
structure LoopState where
  delayMs : Nat
  networkErrors : List NetErr := []
  response : Option HttpResponse := none
  responseBody : Option ResponseBody := none
  sleeps : List Nat := []
deriving DecidableEq, Repr

/-- One iteration of the `do`-loop body of `request()`: sleep, fetch (or
catch), then — when some response has been received — deserialize it and
decide whether to `break` (second component `true` = `break`). -/
def attemptOnce (cfg : ClientConfig) (outcome : FetchOutcome) (st : LoopState) :
    LoopState × Bool :=
  let st1 := { st with sleeps := st.sleeps ++ [st.delayMs] }
  let st2 :=
    match outcome with
    | .throwErr e =>
        { st1 with
          delayMs := max (st1.delayMs * 2) LEAST_DELAY_AFTER_NETWORK_ERROR_MS,
          networkErrors := st1.networkErrors ++ [e] }
    | .reply r => { st1 with response := some r }
  match st2.response with
  | none => (st2, false)
  | some r =>
    let contentType := contentTypeForResponse r.contentTypeHeader cfg.format
    let body := deserialize contentType r
    let st3 := { st2 with responseBody := some body }
    match body.errors with
    | some es =>
      let p := addToDelayMsIfBudgetExhausted cfg.leastDelayMs st3.delayMs es
      ({ st3 with delayMs := p.1 }, !p.2)
    | none =>
      if r.ok && body.data.isSome then (st3, true) else (st3, false)

/-- The `do { ... } while (++this.retrying < this.retryCount)` loop.  `i` is
`this.retrying` at entry of the body; `script i` is the outcome of the `i`-th
fetch; the result's second component is the number of attempts performed.
`gas` only bounds the recursion: every call starts with
`gas = max 1 retryCount`, which the loop never exhausts. -/
def requestGo (cfg : ClientConfig) (script : Nat → FetchOutcome) :
    Nat → Nat → LoopState → LoopState × Nat
  | 0, i, st => (st, i)
  | gas + 1, i, st =>
    let p := attemptOnce cfg (script i) st
    if p.2 then (p.1, i + 1)
    else if i + 1 < cfg.retryCount then requestGo cfg script gas (i + 1) p.1
    else (p.1, i + 1)

/-- The whole attempt loop of one logical `request()` call. -/
def runLoop (cfg : ClientConfig) (script : Nat → FetchOutcome) (st : LoopState) :
    LoopState × Nat :=
  requestGo cfg script (max 1 cfg.retryCount) 0 st

/-- What a logical `request()` call resolves to. -/
inductive RequestOutcome where
  | thrown (msg : String)
  | graphqlError (msg query : String) (vars : Variables) (errors : List ErrorRecord)
  | networkError (msg : String) (errors : List NetErr)
  | success (body : ResponseBody)
deriving DecidableEq, Repr

/-- Observable result of one logical `request()` call: its outcome, the
client-instance `delayMs` it left behind, the number of fetch attempts, and
the sequence of delays slept before each attempt. -/
structure RequestTrace where
  outcome : RequestOutcome
  finalDelayMs : Nat
  attempts : Nat
  sleeps : List Nat
deriving DecidableEq, Repr

/-- The `util.inspect`-bearing message of the second `NetworkError` throw
(the external `inspect` rendering is elided from the message). -/
def invalidResponseMessage (r : HttpResponse) : String :=
  "Invalid GraphQL response: " ++ toString r.status ++ " " ++ r.statusText

/-- The post-loop resolution of `request()` (source order): no response at all
→ `NetworkError("Invalid HTTP response")`; a body with `errors` → one more
`addToDelayMsIfBudgetExhausted` then `GraphqlError("GraphQL errors")`; not
(`ok` and truthy `data`) → `NetworkError("Invalid GraphQL response: ...")`;
else success.  The latest client copy performs no `delayMs` reset on
success. -/
def requestResolve (cfg : ClientConfig) (queryString : String)
    (vars : Variables) (lr : LoopState × Nat) : RequestTrace :=
  let st := lr.1
  match st.response with
  | none =>
    { outcome := .networkError "Invalid HTTP response" st.networkErrors,
      finalDelayMs := st.delayMs, attempts := lr.2, sleeps := st.sleeps }
  | some resp =>
    match st.responseBody with
    | some body =>
      match body.errors with
      | some es =>
        { outcome := .graphqlError "GraphQL errors" queryString vars es,
          finalDelayMs := (addToDelayMsIfBudgetExhausted cfg.leastDelayMs st.delayMs es).1,
          attempts := lr.2, sleeps := st.sleeps }
      | none =>
        if resp.ok && body.data.isSome then
          { outcome := .success body,
            finalDelayMs := st.delayMs, attempts := lr.2, sleeps := st.sleeps }
        else
          { outcome := .networkError (invalidResponseMessage resp) st.networkErrors,
            finalDelayMs := st.delayMs, attempts := lr.2, sleeps := st.sleeps }
    | none =>
      { outcome := .networkError (invalidResponseMessage resp) st.networkErrors,
        finalDelayMs := st.delayMs, attempts := lr.2, sleeps := st.sleeps }

/-- One logical `request({ query, vars })` call on a client whose
instance field `delayMs` currently holds `delayMs0`.  `script i` gives the
behaviour of the `i`-th network call of this logical call. -/
def request (cfg : ClientConfig) (delayMs0 : Nat) (query : DocumentNode)
    (vars : Variables) (script : Nat → FetchOutcome) : RequestTrace :=
  match getOperationName query with
  | none =>
    { outcome := .thrown "GraphQL query operationName is required",
      finalDelayMs := delayMs0, attempts := 0, sleeps := [] }
  | some opName =>
    let queryString := printDoc query
    match serialize cfg.format
        { query := queryString, operationName := some opName,
          vars := vars } with
    | .error msg =>
      { outcome := .thrown msg, finalDelayMs := delayMs0, attempts := 0, sleeps := [] }
    | .ok _ =>
      requestResolve cfg queryString vars
        (runLoop cfg script
          { delayMs := delayMs0, networkErrors := [], response := none,
            responseBody := none, sleeps := [] })

/-- A value caught by a caller's error handler: an instance of the
`GraphqlError` class, of the `NetworkError` class, or anything else. -/
inductive ThrownValue where
  | graphql (message query : String) (vars : Variables) (errors : List ErrorRecord)
  | network (message : String) (errors : List NetErr)
  | other (v : String)
deriving DecidableEq, Repr

/-- `isNotFoundError(e)`: `e instanceof GraphqlError` and
`e.errors[0].extensions` has `code === "NOT_FOUND"`.  On a `GraphqlError`
whose error list is empty, `e.errors[0]` is `undefined` and reading
`.extensions` throws a `TypeError`, embedded as `none`. -/
def isNotFoundError : ThrownValue → Option Bool
  | .graphql _ _ _ errors =>
    match errors with
    | [] => none
    | e :: _ =>
      match e.extensions with
      | some x => some (decide (x.code = some "NOT_FOUND"))
      | none => some false
  | _ => some false

/-- Whether one error record carries `extensions.code == "NOT_FOUND"`. -/
def hasNotFoundCode (e : ErrorRecord) : Bool :=
  match e.extensions with
  | some x => x.code = some "NOT_FOUND"
  | none => false

/-- Whether a thrown value is a `GraphqlError` whose first error record
carries the `NOT_FOUND` code. -/
def firstErrorIsNotFound : ThrownValue → Bool
  | .graphql _ _ _ (e :: _) => hasNotFoundCode e
  | _ => false

/-- Whether a thrown value is a `GraphqlError` with an empty error list. -/
def isGraphqlWithEmptyErrors : ThrownValue → Bool
  | .graphql _ _ _ [] => true
  | _ => false

/-! Concrete fixtures used by witnesses, counterexamples and failing-input
evaluations. -/

/-- A document with one named operation (shape of the repository's `gql`
documents, e.g. `HelloKibelaClient`). -/
def docNamed : DocumentNode :=
  ⟨[.operation (some "HelloKibela") "query { currentUser { account } }"]⟩

/-- A document whose only definition is a fragment: no named operation. -/
def docFragmentOnly : DocumentNode := ⟨[.fragment "F" "on Note { id }"]⟩

/-- A successful HTTP response carrying a `data` field. -/
def rOk : HttpResponse :=
  { ok := true, status := 200, statusText := "OK",
    decoded := { data := some "payload" } }

/-- A sole budget-exhaustion error suggesting a wait of `w` milliseconds. -/
def budgetError (w : Nat) : ErrorRecord :=
  { extensions := some { code := some "TOKEN_BUDGET_EXHAUSTED", waitMilliseconds := some w } }

/-- A response whose decoded body carries exactly one budget-exhaustion
error with `waitMilliseconds = w`. -/
def rBudget (w : Nat) : HttpResponse :=
  { ok := false, status := 200, statusText := "OK",
    decoded := { errors := some [budgetError w] } }

/-- A maintenance-mode HTML response (unrecognized content type). -/
def rHtml : HttpResponse :=
  { ok := false, status := 503, statusText := "Service Unavailable",
    contentTypeHeader := some "text/html", textBody := "maintenance" }

/-- Client configured with `retryCount = 1` (msgpack, default least delay). -/
def cfgRetry1 : ClientConfig :=
  { format := FORMAT_MSGPACK, leastDelayMs := 100, retryCount := 1 }

/-- Client configured with `retryCount = 2` (msgpack, default least delay). -/
def cfgRetry2 : ClientConfig :=
  { format := FORMAT_MSGPACK, leastDelayMs := 100, retryCount := 2 }

/-- Client configured with `retryCount = 3` (msgpack, default least delay). -/
def cfgRetry3 : ClientConfig :=
  { format := FORMAT_MSGPACK, leastDelayMs := 100, retryCount := 3 }

/-- Transport that fails on every attempt with the same exception. -/
def alwaysThrow : Nat → FetchOutcome := fun _ => .throwErr "ECONNRESET"

/-- Transport: first attempt sole budget error (`waitMilliseconds = 500`),
then success. -/
def scriptBudgetThenOk : Nat → FetchOutcome :=
  fun k => if k = 0 then .reply (rBudget 500) else .reply rOk

/-- Transport: first attempt raises, then success. -/
def scriptThrowThenOk : Nat → FetchOutcome :=
  fun k => if k = 0 then .throwErr "boom" else .reply rOk

/-- Transport: sole budget error (`waitMilliseconds = 50`), then a raised
network error, then success. -/
def scriptBudgetThrowOk : Nat → FetchOutcome :=
  fun k => if k = 0 then .reply (rBudget 50)
    else if k = 1 then .throwErr "boom" else .reply rOk

/-- The `extensions.code` of the first error of a decoded body, if any. -/
def firstErrorCode (b : ResponseBody) : Option String :=
  match b.errors with
  | some (e :: _) =>
    match e.extensions with
    | some x => x.code
    | none => none
  | _ => none

/-! Shared helper lemmas about the embedded client. -/

/-- The boolean reported by `addToDelayMsIfBudgetExhausted` is exactly the
sole-budget-error test. -/
theorem addToDelayMsIfBudgetExhausted_snd (l d : Nat) (es : List ErrorRecord) :
    (addToDelayMsIfBudgetExhausted l d es).2 = soleBudgetExhausted es := by
  rcases es with _ | ⟨e, _ | ⟨e2, rest⟩⟩
  · rfl
  · rcases e with ⟨m, _ | x⟩
    · rfl
    · rcases x with ⟨_ | c, w, ct, b⟩
      · rfl
      · by_cases h1 : c = "TOKEN_BUDGET_EXHAUSTED"
        · simp [addToDelayMsIfBudgetExhausted, soleBudgetExhausted, h1]
        · by_cases h2 : c = "TEAM_BUDGET_EXHAUSTED" <;>
            simp [addToDelayMsIfBudgetExhausted, soleBudgetExhausted, h1, h2]
  · rfl

/-- An iteration whose fetch raises, in a run where no earlier response is
held: backoff `max(delay * 2, LEAST_DELAY_AFTER_NETWORK_ERROR_MS)`, record
the exception, no `break`. -/
theorem attemptOnce_throwErr_of_response_none (cfg : ClientConfig) (e : NetErr)
    (st : LoopState) (h : st.response = none) :
    attemptOnce cfg (.throwErr e) st =
      ({ delayMs := max (st.delayMs * 2) LEAST_DELAY_AFTER_NETWORK_ERROR_MS,
         networkErrors := st.networkErrors ++ [e],
         response := none,
         responseBody := st.responseBody,
         sleeps := st.sleeps ++ [st.delayMs] }, false) := by
  simp [attemptOnce, h]

/-- An iteration whose fetch raises always appends the exception, whatever
else the iteration does with a stale earlier response. -/
theorem attemptOnce_throwErr_networkErrors (cfg : ClientConfig) (e : NetErr)
    (st : LoopState) :
    ((attemptOnce cfg (.throwErr e) st).1).networkErrors = st.networkErrors ++ [e] := by
  simp only [attemptOnce]
  cases h : st.response with
  | none => simp [h]
  | some r =>
    simp only [h]
    cases hb : (deserialize (contentTypeForResponse r.contentTypeHeader cfg.format) r).errors with
    | none =>
      by_cases hok : r.ok &&
          (deserialize (contentTypeForResponse r.contentTypeHeader cfg.format) r).data.isSome
      · simp [hb, hok]
      · simp [hb, hok]
    | some es => simp [hb]

/-- An iteration that receives a response (msgpack client, no content-type
header) whose decoded body carries `errors`: the budget check decides both the
`delayMs` update and whether the loop breaks. -/
theorem attemptOnce_reply_errors (cfg : ClientConfig) (r : HttpResponse)
    (st : LoopState) (es : List ErrorRecord)
    (hf : cfg.format = FORMAT_MSGPACK) (hh : r.contentTypeHeader = none)
    (he : r.decoded.errors = some es) :
    attemptOnce cfg (.reply r) st =
      ({ delayMs := (addToDelayMsIfBudgetExhausted cfg.leastDelayMs st.delayMs es).1,
         networkErrors := st.networkErrors,
         response := some r,
         responseBody := some r.decoded,
         sleeps := st.sleeps ++ [st.delayMs] },
       !(addToDelayMsIfBudgetExhausted cfg.leastDelayMs st.delayMs es).2) := by
  simp [attemptOnce, hh, hf, contentTypeForResponse, normalizeMimeType, jsOrElse,
    deserialize, FORMAT_MSGPACK, he]

/-- The attempt index only grows through the loop. -/
theorem requestGo_snd_ge (cfg : ClientConfig) (script : Nat → FetchOutcome) :
    ∀ gas i st, i ≤ (requestGo cfg script gas i st).2 := by
  intro gas
  induction gas with
  | zero => intro i st; exact Nat.le_refl i
  | succ n ih =>
    intro i st
    simp only [requestGo]
    by_cases h1 : (attemptOnce cfg (script i) st).2
    · simp [h1]
    · by_cases h2 : i + 1 < cfg.retryCount
      · simp only [h1, if_false, h2, if_true, Bool.false_eq_true]
        have := ih (i + 1) (attemptOnce cfg (script i) st).1
        omega
      · simp [h1, h2]

/-- With gas left, the loop body runs at least once more. -/
theorem requestGo_snd_ge_succ (cfg : ClientConfig) (script : Nat → FetchOutcome)
    (gas i : Nat) (st : LoopState) :
    i + 1 ≤ (requestGo cfg script (gas + 1) i st).2 := by
  simp only [requestGo]
  by_cases h1 : (attemptOnce cfg (script i) st).2
  · simp [h1]
  · by_cases h2 : i + 1 < cfg.retryCount
    · simp only [h1, if_false, h2, if_true, Bool.false_eq_true]
      exact requestGo_snd_ge cfg script gas (i + 1) _
    · simp [h1, h2]

/-- Running the loop against a transport that raises on every attempt: no
response is ever held, one exception is recorded per attempt, and the
attempt count reaches exactly `max (i + 1) retryCount` from attempt `i`. -/
theorem requestGo_allThrow (cfg : ClientConfig) (errs : Nat → NetErr) :
    ∀ gas i st, st.response = none →
      max 1 cfg.retryCount ≤ gas + i → i < max 1 cfg.retryCount →
      (requestGo cfg (fun k => .throwErr (errs k)) gas i st).1.response = none ∧
      (requestGo cfg (fun k => .throwErr (errs k)) gas i st).1.networkErrors.length
        = st.networkErrors.length + (max (i + 1) cfg.retryCount - i) ∧
      (requestGo cfg (fun k => .throwErr (errs k)) gas i st).2
        = max (i + 1) cfg.retryCount := by
  intro gas
  induction gas with
  | zero => intro i st _ hge hlt; omega
  | succ n ih =>
    intro i st h hge hlt
    simp only [requestGo]
    rw [attemptOnce_throwErr_of_response_none cfg (errs i) st h]
    simp only [Bool.false_eq_true, if_false]
    by_cases h2 : i + 1 < cfg.retryCount
    · simp only [h2, if_true]
      have hih := ih (i + 1)
        { delayMs := max (st.delayMs * 2) LEAST_DELAY_AFTER_NETWORK_ERROR_MS,
          networkErrors := st.networkErrors ++ [errs i],
          response := none,
          responseBody := st.responseBody,
          sleeps := st.sleeps ++ [st.delayMs] }
        rfl (by omega) (by omega)
      refine ⟨hih.1, ?_, ?_⟩
      · have := hih.2.1
        simp only [List.length_append, List.length_cons, List.length_nil] at this
        omega
      · have := hih.2.2
        omega
    · simp only [h2, if_false]
      refine ⟨by simp, ?_, ?_⟩
      · simp only [List.length_append, List.length_cons, List.length_nil]
        omega
      · omega

/-- On a document with a named operation and a legal format, `request`
reduces to the loop followed by the post-loop resolution. -/
theorem request_eq_resolve (cfg : ClientConfig) (d : Nat) (q : DocumentNode)
    (v : Variables) (script : Nat → FetchOutcome) (nm : String)
    (hq : getOperationName q = some nm)
    (hf : cfg.format = FORMAT_MSGPACK ∨ cfg.format = FORMAT_JSON) :
    request cfg d q v script =
      requestResolve cfg (printDoc q) v
        (runLoop cfg script
          { delayMs := d, networkErrors := [], response := none,
            responseBody := none, sleeps := [] }) := by
  rcases hf with hf | hf <;>
    simp [request, hq, hf, serialize, FORMAT_JSON, FORMAT_MSGPACK]

/-- The resolution step reports the loop's attempt count unchanged. -/
theorem requestResolve_attempts (cfg : ClientConfig) (qs : String) (v : Variables)
    (lr : LoopState × Nat) : (requestResolve cfg qs v lr).attempts = lr.2 := by
  rcases lr with ⟨⟨dm, ne, _ | r, rb, sl⟩, a⟩
  · rfl
  · rcases rb with _ | b
    · rfl
    · rcases hb : b.errors with _ | es
      · by_cases hok : r.ok && b.data.isSome <;> simp [requestResolve, hb, hok]
      · simp [requestResolve, hb]

/-- When the loop ends with no response ever received, the call raises
`NetworkError("Invalid HTTP response")` with the accumulated exceptions. -/
theorem requestResolve_response_none (cfg : ClientConfig) (qs : String)
    (v : Variables) (lr : LoopState × Nat) (h : lr.1.response = none) :
    requestResolve cfg qs v lr =
      { outcome := .networkError "Invalid HTTP response" lr.1.networkErrors,
        finalDelayMs := lr.1.delayMs, attempts := lr.2, sleeps := lr.1.sleeps } := by
  rcases lr with ⟨st, a⟩
  simp only at h
  simp [requestResolve, h]

/-- When the last decoded body carries `errors`, the call raises
`GraphqlError("GraphQL errors")` with the query text, the variables object
and that error list. -/
theorem requestResolve_errors (cfg : ClientConfig) (qs : String) (v : Variables)
    (st : LoopState) (a : Nat) (r : HttpResponse) (b : ResponseBody)
    (es : List ErrorRecord) (hr : st.response = some r)
    (hb : st.responseBody = some b) (he : b.errors = some es) :
    requestResolve cfg qs v (st, a) =
      { outcome := .graphqlError "GraphQL errors" qs v es,
        finalDelayMs := (addToDelayMsIfBudgetExhausted cfg.leastDelayMs st.delayMs es).1,
        attempts := a, sleeps := st.sleeps } := by
  simp [requestResolve, hr, hb, he]

/-! Claim theorems. -/

/-- C1, counterexample: with `retryCount = 1` and a transport that raises on
every attempt, the loop `do ... while (++this.retrying < this.retryCount)`
performs exactly 1 attempt and raises `NetworkError` with 1 recorded failure,
not the `N + 1 = 2` attempts and failures the claim requires. -/
theorem c1_counterexample :
    cfgRetry1.retryCount = 1 ∧
    (request cfgRetry1 0 docNamed "vars" alwaysThrow).attempts = 1 ∧
    (request cfgRetry1 0 docNamed "vars" alwaysThrow).outcome
      = .networkError "Invalid HTTP response" ["ECONNRESET"] ∧
    (1 : Nat) ≠ 1 + 1 :=
  ⟨rfl, rfl, rfl, by decide⟩

/-- C1, amended: for every configured `retryCount = N`, a client whose
transport call raises on every attempt performs exactly `max(N, 1)` network
attempts and then raises `NetworkError` whose recorded error list has exactly
`max(N, 1)` entries (`N + 1` only in the default case `N = 0`). -/
theorem c1_retry_attempts_amended (cfg : ClientConfig) (d : Nat)
    (q : DocumentNode) (v : Variables) (errs : Nat → NetErr) (nm : String)
    (hq : getOperationName q = some nm)
    (hf : cfg.format = FORMAT_MSGPACK ∨ cfg.format = FORMAT_JSON) :
    (request cfg d q v (fun k => .throwErr (errs k))).attempts
      = max 1 cfg.retryCount ∧
    ∃ es : List NetErr,
      (request cfg d q v (fun k => .throwErr (errs k))).outcome
        = .networkError "Invalid HTTP response" es ∧
      es.length = max 1 cfg.retryCount := by
  rw [request_eq_resolve cfg d q v _ nm hq hf]
  simp only [runLoop]
  have h := requestGo_allThrow cfg errs (max 1 cfg.retryCount) 0
    { delayMs := d, networkErrors := [], response := none,
      responseBody := none, sleeps := [] }
    rfl (by omega) (by omega)
  rw [requestResolve_response_none cfg (printDoc q) v _ h.1]
  refine ⟨?_, ⟨_, rfl, ?_⟩⟩
  · have := h.2.2
    simpa using this
  · have h2 := h.2.1
    simp only [List.length_nil] at h2
    omega

/-- C1, witness: the amended count at `retryCount = 2`: two attempts. -/
theorem c1_witness :
    (request cfgRetry2 0 docNamed "vars"
        (fun k => .throwErr ((fun _ => "ECONNRESET") k))).attempts = 2 := by
  have h := c1_retry_attempts_amended cfgRetry2 0 docNamed "vars"
    (fun _ => "ECONNRESET") "HelloKibela" rfl (Or.inl rfl)
  simpa [cfgRetry2] using h.1

/-- C2, failing input: `leastDelayMs = 100`, `retryCount = 2`, first attempt
answered by a sole `TOKEN_BUDGET_EXHAUSTED` error with
`waitMilliseconds = 500`.  The attempt is indeed not failed (the call retries
and succeeds), but the delay slept before the next attempt is
`Math.min(leastDelayMs, waitMilliseconds) = 100 < 500`: the client does not
wait at least the remote-supplied 500 ms the claim (and the function's own
name, `addToDelayMsIfBudgetExhausted`) requires. -/
theorem c2_budget_wait_failing_input :
    (request cfgRetry2 0 docNamed "vars" scriptBudgetThenOk).sleeps = [0, 100] ∧
    (request cfgRetry2 0 docNamed "vars" scriptBudgetThenOk).attempts = 2 ∧
    (request cfgRetry2 0 docNamed "vars" scriptBudgetThenOk).outcome
      = .success { data := some "payload" } ∧
    min cfgRetry2.leastDelayMs 500 = 100 ∧ (100 : Nat) < 500 :=
  ⟨rfl, rfl, rfl, rfl, by decide⟩

/-- C3, failing input: `leastDelayMs = 100`, `retryCount = 2`, transport
raising once and then succeeding.  The call succeeds but the latest client
copy performs no `delayMs` reset on success: the adaptive delay field stays
at the backoff value 1000, not at `leastDelayMs = 100` as the claim (and the
commented reset in the repository's other copy of `KibelaClient.ts`)
requires. -/
theorem c3_delay_reset_failing_input :
    (request cfgRetry2 0 docNamed "vars" scriptThrowThenOk).outcome
      = .success { data := some "payload" } ∧
    (request cfgRetry2 0 docNamed "vars" scriptThrowThenOk).finalDelayMs = 1000 ∧
    cfgRetry2.leastDelayMs = 100 ∧ (1000 : Nat) ≠ 100 :=
  ⟨rfl, rfl, rfl, by decide⟩

/-- C4: a `request()` whose operation document has no named executable
operation throws the configuration error immediately: zero fetch attempts,
zero sleeps, and the client delay field untouched.  (The thrown message is
the source message without its apostrophe.) -/
theorem c4_missing_operation_name (cfg : ClientConfig) (d : Nat)
    (q : DocumentNode) (v : Variables) (script : Nat → FetchOutcome)
    (h : getOperationName q = none) :
    request cfg d q v script =
      { outcome := .thrown "GraphQL query operationName is required",
        finalDelayMs := d, attempts := 0, sleeps := [] } := by
  simp [request, h]

/-- C4, witness: a fragment-only document fails with zero network calls. -/
theorem c4_witness :
    getOperationName docFragmentOnly = none ∧
    request cfgRetry2 0 docFragmentOnly "vars" alwaysThrow =
      { outcome := .thrown "GraphQL query operationName is required",
        finalDelayMs := 0, attempts := 0, sleeps := [] } :=
  ⟨rfl, c4_missing_operation_name cfgRetry2 0 docFragmentOnly "vars" alwaysThrow rfl⟩

/-- C5, counterexample: the synthesized error of `deserialize` on an
unsupported MIME type carries `extensions.code =
"KibelaClient.UNRECOGNIZED_CONTENT_TYPE"`, not the bare
`"UNRECOGNIZED_CONTENT_TYPE"` the claim states. -/
theorem c5_counterexample :
    firstErrorCode (deserialize "text/html" rHtml)
        = some "KibelaClient.UNRECOGNIZED_CONTENT_TYPE" ∧
    firstErrorCode (deserialize "text/html" rHtml)
        ≠ some "UNRECOGNIZED_CONTENT_TYPE" := by
  constructor
  · rfl
  · decide

/-- C5, amended: for every MIME type outside the two supported formats,
`serialize` raises `Error("Unrecognized MIME type: ...")`, while
`deserialize` never raises and returns an error-shaped object whose single
error carries `extensions.code = "KibelaClient.UNRECOGNIZED_CONTENT_TYPE"`,
the content type, and the body (text for `text/*`, raw bytes otherwise). -/
theorem c5_unrecognized_mime_amended (mime : String) (env : RequestEnvelope)
    (r : HttpResponse)
    (h1 : mime ≠ FORMAT_MSGPACK) (h2 : mime ≠ FORMAT_JSON) :
    serialize mime env = .error ("Unrecognized MIME type: " ++ mime) ∧
    deserialize mime r =
      { data := none,
        errors := some
          [{ message := some ("Unrecognized content-type: " ++ mime),
             extensions := some
               { code := some "KibelaClient.UNRECOGNIZED_CONTENT_TYPE",
                 waitMilliseconds := none,
                 contentType := some mime,
                 body := some (if mime.startsWith "text/"
                   then .textPayload r.textBody
                   else .binaryPayload r.binaryBody) } }] } := by
  constructor
  · simp [serialize, h1, h2]
  · simp [deserialize, h1, h2]

/-- C5, witness: `text/html` (a maintenance page) exercises both halves. -/
theorem c5_witness :
    serialize "text/html" { query := "q", operationName := some "Op", vars := "v" }
      = .error ("Unrecognized MIME type: " ++ "text/html") ∧
    deserialize "text/html" rHtml =
      { data := none,
        errors := some
          [{ message := some ("Unrecognized content-type: " ++ "text/html"),
             extensions := some
               { code := some "KibelaClient.UNRECOGNIZED_CONTENT_TYPE",
                 waitMilliseconds := none,
                 contentType := some "text/html",
                 body := some (if ("text/html").startsWith "text/"
                   then .textPayload rHtml.textBody
                   else .binaryPayload rHtml.binaryBody) } }] } :=
  c5_unrecognized_mime_amended "text/html"
    { query := "q", operationName := some "Op", vars := "v" } rHtml
    (by decide) (by decide)

/-- C6: for a decoded first response carrying an `errors` array `es`: when
`es` is not a sole budget-exhaustion error, retrying stops after that single
attempt and the call raises the terminal `GraphqlError` carrying the
serialized query text, the variables object and `es`; when `es` is a sole
budget-exhaustion error and retry budget remains, the loop performs at least
one further attempt. -/
theorem c6_sole_budget_retry (cfg : ClientConfig) (d : Nat) (q : DocumentNode)
    (v : Variables) (r : HttpResponse) (es : List ErrorRecord)
    (script : Nat → FetchOutcome) (nm : String)
    (hq : getOperationName q = some nm)
    (hf : cfg.format = FORMAT_MSGPACK)
    (hs : script 0 = .reply r)
    (hh : r.contentTypeHeader = none)
    (he : r.decoded.errors = some es) :
    (soleBudgetExhausted es = false →
      (request cfg d q v script).outcome
        = .graphqlError "GraphQL errors" (printDoc q) v es ∧
      (request cfg d q v script).attempts = 1) ∧
    (soleBudgetExhausted es = true → 1 < cfg.retryCount →
      2 ≤ (request cfg d q v script).attempts) := by
  rw [request_eq_resolve cfg d q v script nm hq (Or.inl hf)]
  simp only [runLoop]
  obtain ⟨k, hk⟩ : ∃ k, max 1 cfg.retryCount = k + 1 :=
    ⟨max 1 cfg.retryCount - 1, by omega⟩
  rw [hk]
  simp only [requestGo]
  rw [hs, attemptOnce_reply_errors cfg r _ es hf hh he]
  constructor
  · intro hsole
    have hb2 : (addToDelayMsIfBudgetExhausted cfg.leastDelayMs
        ({ delayMs := d, networkErrors := [], response := none,
           responseBody := none, sleeps := [] } : LoopState).delayMs es).2 = false := by
      rw [addToDelayMsIfBudgetExhausted_snd]; exact hsole
    simp only [hb2, Bool.not_false, if_true]
    rw [requestResolve_errors cfg (printDoc q) v _ (0 + 1) r r.decoded es rfl rfl he]
    exact ⟨rfl, rfl⟩
  · intro hsole hR
    have hb2 : (addToDelayMsIfBudgetExhausted cfg.leastDelayMs
        ({ delayMs := d, networkErrors := [], response := none,
           responseBody := none, sleeps := [] } : LoopState).delayMs es).2 = true := by
      rw [addToDelayMsIfBudgetExhausted_snd]; exact hsole
    simp only [hb2, Bool.not_true, if_false]
    have h1R : 0 + 1 < cfg.retryCount := by omega
    simp only [h1R, if_true]
    rw [requestResolve_attempts]
    obtain ⟨k2, rfl⟩ : ∃ k2, k = k2 + 1 := ⟨k - 1, by omega⟩
    exact requestGo_snd_ge_succ cfg script k2 (0 + 1) _

/-- Two application errors, neither a budget code: a terminal error list. -/
def terminalErrors : List ErrorRecord :=
  [{ message := some "first failure", extensions := some { code := some "INTERNAL" } },
   { message := some "second failure" }]

/-- A response whose decoded body carries the two terminal errors. -/
def rTerminal : HttpResponse :=
  { ok := false, status := 200, statusText := "OK",
    decoded := { errors := some terminalErrors } }

/-- C6, witness: a two-error response is terminal on the first attempt. -/
theorem c6_witness :
    (request cfgRetry2 0 docNamed "vars" (fun _ => .reply rTerminal)).outcome
      = .graphqlError "GraphQL errors" (printDoc docNamed) "vars" terminalErrors ∧
    (request cfgRetry2 0 docNamed "vars" (fun _ => .reply rTerminal)).attempts = 1 :=
  (c6_sole_budget_retry cfgRetry2 0 docNamed "vars" rTerminal terminalErrors
    (fun _ => .reply rTerminal) "HelloKibela" rfl rfl rfl rfl rfl).1 rfl

/-- C7, counterexample: `retryCount = 3`, `leastDelayMs = 100`; attempt 1
returns a sole budget error with `waitMilliseconds = 50` (delay becomes 50),
attempt 2's fetch raises.  The claim requires the delay applied before
attempt 3 to be `max(50 * 2, LEAST_DELAY_AFTER_NETWORK_ERROR_MS) = 1000`,
but the loop still holds attempt 1's response, reprocesses it after the
catch, and its budget path overwrites the backoff: attempt 3 sleeps 50. -/
theorem c7_counterexample :
    (request cfgRetry3 0 docNamed "vars" scriptBudgetThrowOk).sleeps = [0, 50, 50] ∧
    max (50 * 2) LEAST_DELAY_AFTER_NETWORK_ERROR_MS = 1000 ∧
    (50 : Nat) ≠ 1000 :=
  ⟨rfl, rfl, by decide⟩

/-- C7, amended: an attempt whose network call raises always appends the
exception to the accumulated list; and provided no response from an earlier
attempt of the same call is still held, the delay becomes
`max(delay * 2, LEAST_DELAY_AFTER_NETWORK_ERROR_MS)` and the loop is not
broken (with a held stale response, its reprocessing may overwrite the
delay in the same iteration). -/
theorem c7_network_backoff_amended (cfg : ClientConfig) (e : NetErr) (st : LoopState) :
    ((attemptOnce cfg (.throwErr e) st).1).networkErrors = st.networkErrors ++ [e] ∧
    (st.response = none →
      attemptOnce cfg (.throwErr e) st =
        ({ delayMs := max (st.delayMs * 2) LEAST_DELAY_AFTER_NETWORK_ERROR_MS,
           networkErrors := st.networkErrors ++ [e],
           response := none, responseBody := st.responseBody,
           sleeps := st.sleeps ++ [st.delayMs] }, false)) :=
  ⟨attemptOnce_throwErr_networkErrors cfg e st,
   fun h => attemptOnce_throwErr_of_response_none cfg e st h⟩

/-- C7, witness: a raising attempt at current delay 3 backs off to
`max(6, 1000)` and records the exception. -/
theorem c7_witness :
    attemptOnce cfgRetry1 (.throwErr "ECONNRESET")
        { delayMs := 3, networkErrors := [], response := none,
          responseBody := none, sleeps := [] } =
      ({ delayMs := max (3 * 2) LEAST_DELAY_AFTER_NETWORK_ERROR_MS,
         networkErrors := [] ++ ["ECONNRESET"],
         response := none, responseBody := none, sleeps := [] ++ [3] }, false) :=
  (c7_network_backoff_amended cfgRetry1 "ECONNRESET"
    { delayMs := 3, networkErrors := [], response := none,
      responseBody := none, sleeps := [] }).2 rfl

/-- A `GraphqlError` whose `NOT_FOUND` code sits in the second error record,
not the first. -/
def notFoundSecondErrors : List ErrorRecord :=
  [{ message := some "other failure", extensions := some { code := some "INTERNAL" } },
   { extensions := some { code := some "NOT_FOUND" } }]

/-- The thrown `GraphqlError` carrying `notFoundSecondErrors`. -/
def notFoundSecond : ThrownValue :=
  .graphql "GraphQL errors" "query text" "vars" notFoundSecondErrors

/-- C8, counterexample: a `GraphqlError` whose error list has a `NOT_FOUND`
entry in second position: the claim requires `true`, but
`isNotFoundError` only inspects `e.errors[0]` and returns `false`. -/
theorem c8_counterexample :
    isNotFoundError notFoundSecond = some false ∧
    notFoundSecondErrors.any hasNotFoundCode = true := by
  constructor <;> decide

/-- C8, amended: `isNotFoundError(e)` returns `true` iff `e` is a
`GraphqlError` whose error list is nonempty and whose first record carries
`extensions.code = "NOT_FOUND"`; it returns `false` without raising for every
other value — except a `GraphqlError` with an empty error list, on which it
raises a `TypeError` (reading `.extensions` of `undefined`). -/
theorem c8_not_found_amended (e : ThrownValue) :
    isNotFoundError e =
      if isGraphqlWithEmptyErrors e then none else some (firstErrorIsNotFound e) := by
  rcases e with ⟨m, q, v, es⟩ | ⟨m, es⟩ | v
  · rcases es with _ | ⟨e0, rest⟩
    · rfl
    · rcases e0 with ⟨msg, _ | x⟩
      · rfl
      · simp [isNotFoundError, firstErrorIsNotFound, hasNotFoundCode,
          isGraphqlWithEmptyErrors]
  · rfl
  · rfl

/-- C9, counterexample: with the (default) msgpack format the `accept`
header is not identical to `content-type` as the claim requires for non-JSON
formats: it additionally offers JSON. -/
theorem c9_counterexample :
    (buildHeaders FORMAT_MSGPACK "agent" "token").accept
      ≠ (buildHeaders FORMAT_MSGPACK "agent" "token").contentType ∧
    (buildHeaders FORMAT_MSGPACK "agent" "token").accept
      = "application/x-msgpack, application/json" := by
  constructor
  · decide
  · rfl

/-- C9, amended: for every client the fixed header set has `content-type`
equal to the resolved format, `authorization = "Bearer <token>"`, the
configured `user-agent`, and `accept` identical to `content-type` when the
format IS JSON; for any other format `accept` additionally offers
`application/json` as a fallback. -/
theorem c9_headers_amended (o : KibelaClientOptions) :
    mkClientHeaders o =
      { userAgent := o.userAgent,
        contentType := jsOrElse o.format FORMAT_MSGPACK,
        accept := if jsOrElse o.format FORMAT_MSGPACK = FORMAT_JSON
          then FORMAT_JSON
          else jsOrElse o.format FORMAT_MSGPACK ++ ", application/json",
        authorization := "Bearer " ++ o.accessToken } := by
  by_cases h : jsOrElse o.format FORMAT_MSGPACK = FORMAT_JSON <;>
    simp [mkClientHeaders, buildHeaders, h]

/-- C10, counterexample: a content-type header that is present but
normalizes to the empty string (parameters only): the claim requires the
stripped/trimmed/lowercased value `""` to be passed to `deserialize`, but
the `|| this.format` fallback substitutes the configured format. -/
theorem c10_counterexample :
    contentTypeForResponse (some "; charset=utf-8") FORMAT_MSGPACK = FORMAT_MSGPACK ∧
    strippedTrimmedLowered "; charset=utf-8" = "" ∧
    FORMAT_MSGPACK ≠ ("" : String) :=
  ⟨rfl, rfl, by decide⟩

/-- C10, amended: the format passed to `deserialize` is the response's
content-type header with parameters after the first `;` stripped, trimmed
and lowercased; when the header is absent, or it normalizes to the empty
string, the client's configured format is used instead — and an attempt that
receives a response stores exactly `deserialize` of that computed content
type. -/
theorem c10_mime_normalization_amended (hdr : Option String) (format : String)
    (cfg : ClientConfig) (r : HttpResponse) (st : LoopState) :
    (contentTypeForResponse hdr format =
      match hdr with
      | none => format
      | some s => if strippedTrimmedLowered s = "" then format
          else strippedTrimmedLowered s) ∧
    ((attemptOnce cfg (.reply r) st).1).responseBody =
      some (deserialize (contentTypeForResponse r.contentTypeHeader cfg.format) r) := by
  constructor
  · rcases hdr with _ | s
    · rfl
    · by_cases h0 : s = ""
      · subst h0
        rfl
      · by_cases h1 : strippedTrimmedLowered s = "" <;>
          simp [contentTypeForResponse, normalizeMimeType, jsOrElse, h0, h1]
  · simp only [attemptOnce]
    cases hb : (deserialize (contentTypeForResponse r.contentTypeHeader cfg.format) r).errors with
    | none =>
      by_cases hok : r.ok &&
          (deserialize (contentTypeForResponse r.contentTypeHeader cfg.format) r).data.isSome
      · simp [hb, hok]
      · simp [hb, hok]
    | some es => simp [hb]
